import Mathlib

/-!
Verification of the offline-first storefront repository against its
specification.

The development shallowly embeds the parts of the repository that the
claims are about:

* the subscriptions management screen (src/unnamed/part_001): the
  optimistic-update handlers `handleAddSubscriber`,
  `handleDeleteSubscriber` and `handleApproveRequest`, modelled as
  functions from the handler's captured closure state (React state read
  at render time) and the network outcome to a trace of actions; a
  JavaScript async handler runs synchronously up to its first `await`
  (which issues the network request) and the rest runs later as a
  continuation, so each handler trace has the shape
  `syncActions ++ handlerReturn :: contActions`;
* the local database schema (src/unnamed/part_000): tables and columns;
* the tab layout owner gate (src/unnamed/part_002): `canAccessOwner`;
* the order status indicator
  (src/frontend/src/components/ui/OrderStatusIndicator.tsx): the
  `STATUS_CONFIG` bracket lookup — distinguishing own properties,
  properties inherited from `Object.prototype`, and `undefined` — with
  its truthiness fallback;
* a Change Log / Coordinator core that the specification describes but
  that has no implementation in the repository sources; those
  definitions are marked `Modelled from the spec:`.

Timestamps (`Date.now()`, `new Date().toISOString()`) are modelled as a
single natural number `now` supplied to a handler call.
-/

/-- A subscriber record as the subscriptions screen handles it
(src/unnamed/part_001): a plain object with an `id`, an `email`, an
optional `name` and a creation timestamp. -/
structure Subscriber where
  id : String
  email : String
  name : Option String
  created_at : Nat
deriving DecidableEq, Repr

/-- A subscription request record (src/unnamed/part_001): `id`,
`status` (the screen uses "pending" and "approved"), customer email and
name. -/
structure Request where
  id : String
  status : String
  customer_email : String
  customer_name : String
deriving DecidableEq, Repr

/-- The React state of the subscriptions screen that the claims are
about (src/unnamed/part_001 lines 32-43): the subscribers list from the
app store, the requests list and the booleans/strings set by
`useState`. -/
structure ScreenState where
  subscribers : List Subscriber
  requests : List Request
  showAddModal : Bool
  newEmail : String
  loading : Bool
  error : Option String
  showConfetti : Bool
deriving DecidableEq, Repr

/-- Outcome of an awaited network call: the resolved response data or a
rejection carrying the optional `err.response.data.detail` string. -/
inductive NetResult (α : Type) where
  | success (data : α)
  | failure (detail : Option String)
deriving DecidableEq, Repr

/-- One observable step of a handler: a React state setter, a network
request being issued, the point where control returns to the caller
(the first `await`), or a haptic notification. -/
inductive UiAction where
  | setSubscribers (subs : List Subscriber)
  | setRequests (reqs : List Request)
  | setShowAddModal (b : Bool)
  | setNewEmail (s : String)
  | setLoading (b : Bool)
  | setError (e : Option String)
  | setShowConfetti (b : Bool)
  | netCreate (email : String)
  | netDelete (id : String)
  | netApprove (id : String)
  | handlerReturn
  | haptic
deriving DecidableEq, Repr

/-- Effect of one action on the screen state: setters replace the
corresponding field; network markers, the return marker and haptics do
not change React state. -/
def applyAction (st : ScreenState) : UiAction → ScreenState
  | .setSubscribers subs => { st with subscribers := subs }
  | .setRequests reqs => { st with requests := reqs }
  | .setShowAddModal b => { st with showAddModal := b }
  | .setNewEmail s => { st with newEmail := s }
  | .setLoading b => { st with loading := b }
  | .setError e => { st with error := e }
  | .setShowConfetti b => { st with showConfetti := b }
  | .netCreate _ => st
  | .netDelete _ => st
  | .netApprove _ => st
  | .handlerReturn => st
  | .haptic => st

/-- Run a list of actions over the screen state, first to last. -/
def runActions (st : ScreenState) (as : List UiAction) : ScreenState :=
  as.foldl applyAction st

/-- True exactly for actions that issue a network request. -/
def isNetworkCall : UiAction → Bool
  | .netCreate _ => true
  | .netDelete _ => true
  | .netApprove _ => true
  | _ => false

/-- JavaScript `String.prototype.trim`, which the add handler calls on
the email input: strip leading and trailing whitespace. Modelled by
structural recursion on the character list of the string so that runs
on concrete inputs evaluate. -/
def jsTrim (s : String) : String :=
  String.mk
    (((s.data.dropWhile Char.isWhitespace).reverse.dropWhile
        Char.isWhitespace).reverse)

/-- The temporary id the add handler generates:
`const tempId = temp-Date.now()` (src/unnamed/part_001 line 72). -/
def tempIdOf (now : Nat) : String :=
  "temp-" ++ toString now

/-- Statements of `handleAddSubscriber` before its first `await`
(src/unnamed/part_001 lines 72-87): build the optimistic subscriber,
prepend it to the captured `subscribers`, close the modal, clear the
input, fire confetti, set loading and issue the create request. Every
list passed to a setter is computed from the captured closure state
`c`, as in the source. -/
def addSyncActions (c : ScreenState) (now : Nat) : List UiAction :=
  [UiAction.setSubscribers
      (⟨tempIdOf now, jsTrim c.newEmail, none, now⟩ :: c.subscribers),
   UiAction.setShowAddModal false,
   UiAction.setNewEmail "",
   UiAction.setShowConfetti true,
   UiAction.setLoading true,
   UiAction.netCreate (jsTrim c.newEmail)]

/-- Continuation of `handleAddSubscriber` after `await
subscriberApi.create` resolves (src/unnamed/part_001 lines 88-97): on
success replace the temp record by the response record; on failure
roll back by filtering the temp id out of the captured `subscribers`
and surface the error; `finally` clears loading. -/
def addContActions (c : ScreenState) (now : Nat)
    (net : NetResult Subscriber) : List UiAction :=
  (match net with
   | .success data =>
      [UiAction.setSubscribers
          (data :: c.subscribers.filter (fun s => s.id != tempIdOf now)),
       UiAction.haptic]
   | .failure detail =>
      [UiAction.setSubscribers
          (c.subscribers.filter (fun s => s.id != tempIdOf now)),
       UiAction.setError (some (detail.getD "Failed to add subscriber")),
       UiAction.haptic]) ++
  [UiAction.setLoading false]

/-- Trace of `handleAddSubscriber` (src/unnamed/part_001 lines 69-98):
`if (!newEmail.trim()) return` guards everything; otherwise the
synchronous part runs, control returns to the caller at the `await`,
and the continuation runs when the create call settles with `net`. -/
def handleAddSubscriber (c : ScreenState) (now : Nat)
    (net : NetResult Subscriber) : List UiAction :=
  if jsTrim c.newEmail = "" then []
  else addSyncActions c now ++ UiAction.handlerReturn :: addContActions c now net

/-- Statements of `handleDeleteSubscriber` before its first `await`
(src/unnamed/part_001 lines 105-109): optimistically filter the
subscriber out of the captured list and issue the delete request. -/
def deleteSyncActions (c : ScreenState) (subId : String) : List UiAction :=
  [UiAction.setSubscribers (c.subscribers.filter (fun s => s.id != subId)),
   UiAction.netDelete subId]

/-- Continuation of `handleDeleteSubscriber` after `await
subscriberApi.delete` settles (src/unnamed/part_001 lines 110-115): on
success only a haptic; on failure roll back by appending the found
record to the captured `subscribers` list and surface the error. -/
def deleteContActions (c : ScreenState) (subToDelete : Subscriber)
    (net : NetResult Unit) : List UiAction :=
  match net with
  | .success _ => [UiAction.haptic]
  | .failure detail =>
      [UiAction.setSubscribers (c.subscribers ++ [subToDelete]),
       UiAction.setError (some (detail.getD "Failed to delete subscriber"))]

/-- Trace of `handleDeleteSubscriber` (src/unnamed/part_001 lines
101-116): return early when no subscriber has the id; otherwise run
the synchronous part, return control at the `await`, and run the
continuation when the delete call settles. -/
def handleDeleteSubscriber (c : ScreenState) (subId : String)
    (net : NetResult Unit) : List UiAction :=
  match c.subscribers.find? (fun s => s.id == subId) with
  | none => []
  | some subToDelete =>
      deleteSyncActions c subId ++
        UiAction.handlerReturn :: deleteContActions c subToDelete net

/-- Statements of `handleApproveRequest` before its first `await`
(src/unnamed/part_001 lines 123-128): optimistically mark the request
approved in the captured list, fire confetti and issue the approve
request. -/
def approveSyncActions (c : ScreenState) (reqId : String) : List UiAction :=
  [UiAction.setRequests
      (c.requests.map (fun r =>
        if r.id == reqId then { r with status := "approved" } else r)),
   UiAction.setShowConfetti true,
   UiAction.netApprove reqId]

/-- Continuation of `handleApproveRequest` after `await
subscriptionRequestApi.approve` settles (src/unnamed/part_001 lines
129-142): on success prepend a new subscriber built from the request to
the captured `subscribers`; on failure roll the request status back to
"pending" and surface the error. -/
def approveContActions (c : ScreenState) (reqId : String)
    (request : Request) (now : Nat) (net : NetResult Unit) : List UiAction :=
  match net with
  | .success _ =>
      [UiAction.setSubscribers
          (⟨"sub-" ++ toString now, request.customer_email,
            some request.customer_name, now⟩ :: c.subscribers),
       UiAction.haptic]
  | .failure detail =>
      [UiAction.setRequests
          (c.requests.map (fun r =>
            if r.id == reqId then { r with status := "pending" } else r)),
       UiAction.setError (some (detail.getD "Failed to approve request"))]

/-- Trace of `handleApproveRequest` (src/unnamed/part_001 lines
119-143): return early when no request has the id; otherwise run the
synchronous part, return control at the `await`, and run the
continuation when the approve call settles. -/
def handleApproveRequest (c : ScreenState) (reqId : String) (now : Nat)
    (net : NetResult Unit) : List UiAction :=
  match c.requests.find? (fun r => r.id == reqId) with
  | none => []
  | some request =>
      approveSyncActions c reqId ++
        UiAction.handlerReturn :: approveContActions c reqId request now net

/-- A column of the local database schema (src/unnamed/part_000): its
`name`, its `colType` (the source key `type`: "string", "number" or
"boolean"), and the `isOptional` / `isIndexed` flags, which default to
false when the source omits them. -/
structure Column where
  name : String
  colType : String
  isOptional : Bool
  isIndexed : Bool
deriving DecidableEq, Repr

/-- A table of the local database schema: its name and its columns. -/
structure TableSchema where
  name : String
  columns : List Column
deriving DecidableEq, Repr

/-- Shorthand for a required, unindexed column. -/
def col (n t : String) : Column := ⟨n, t, false, false⟩

/-- Shorthand for an optional, unindexed column. -/
def optCol (n t : String) : Column := ⟨n, t, true, false⟩

/-- Shorthand for a required, indexed column. -/
def idxCol (n t : String) : Column := ⟨n, t, false, true⟩

/-- Shorthand for an optional, indexed column. -/
def optIdxCol (n t : String) : Column := ⟨n, t, true, true⟩

/-- The `car_brands` table (src/unnamed/part_000 lines 11-21). -/
def carBrandsTable : TableSchema :=
  ⟨"car_brands",
   [col "server_id" "string", col "name" "string", col "name_ar" "string",
    optCol "logo" "string", col "created_at" "number",
    col "updated_at" "number"]⟩

/-- The `car_models` table (src/unnamed/part_000 lines 24-40). -/
def carModelsTable : TableSchema :=
  ⟨"car_models",
   [col "server_id" "string", idxCol "brand_id" "string",
    col "name" "string", col "name_ar" "string",
    optCol "year_start" "number", optCol "year_end" "number",
    optCol "image_url" "string", optCol "description" "string",
    optCol "description_ar" "string", optCol "variants" "string",
    col "created_at" "number", col "updated_at" "number"]⟩

/-- The `product_brands` table (src/unnamed/part_000 lines 43-55). -/
def productBrandsTable : TableSchema :=
  ⟨"product_brands",
   [col "server_id" "string", col "name" "string",
    optCol "name_ar" "string", optCol "logo" "string",
    optCol "country_of_origin" "string",
    optCol "country_of_origin_ar" "string",
    col "created_at" "number", col "updated_at" "number"]⟩

/-- The `categories` table (src/unnamed/part_000 lines 58-70). -/
def categoriesTable : TableSchema :=
  ⟨"categories",
   [col "server_id" "string", col "name" "string", col "name_ar" "string",
    optIdxCol "parent_id" "string", optCol "icon" "string",
    col "sort_order" "number", col "created_at" "number",
    col "updated_at" "number"]⟩

/-- The `products` table (src/unnamed/part_000 lines 73-93). Note that
`server_id` carries no `isOptional` flag in the source, so it is a
required column. -/
def productsTable : TableSchema :=
  ⟨"products",
   [col "server_id" "string", col "name" "string", col "name_ar" "string",
    optCol "description" "string", optCol "description_ar" "string",
    col "price" "number", idxCol "sku" "string",
    optIdxCol "product_brand_id" "string", optIdxCol "category_id" "string",
    optCol "image_url" "string", optCol "images" "string",
    optCol "car_model_ids" "string", col "stock_quantity" "number",
    col "hidden_status" "boolean", col "created_at" "number",
    col "updated_at" "number"]⟩

/-- The `favorites` table (src/unnamed/part_000 lines 96-105): the only
table whose `server_id` column is marked `isOptional: true`. -/
def favoritesTable : TableSchema :=
  ⟨"favorites",
   [optCol "server_id" "string", idxCol "user_id" "string",
    idxCol "product_id" "string", col "created_at" "number",
    col "updated_at" "number"]⟩

/-- The `cart_items` table (src/unnamed/part_000 lines 108-116): a
local-first table with no `server_id` column at all. -/
def cartItemsTable : TableSchema :=
  ⟨"cart_items",
   [idxCol "product_id" "string", col "quantity" "number",
    col "created_at" "number", col "updated_at" "number"]⟩

/-- The `sync_metadata` table (src/unnamed/part_000 lines 119-125). -/
def syncMetadataTable : TableSchema :=
  ⟨"sync_metadata",
   [idxCol "table_name" "string", col "last_pulled_at" "number"]⟩

/-- The full table list of the app schema (src/unnamed/part_000). -/
def appSchemaTables : List TableSchema :=
  [carBrandsTable, carModelsTable, productBrandsTable, categoriesTable,
   productsTable, favoritesTable, cartItemsTable, syncMetadataTable]

/-- Look a table up by name in a schema. -/
def findTable (tables : List TableSchema) (n : String) : Option TableSchema :=
  tables.find? (fun t => t.name == n)

/-- Whether a table has a column of the given name. -/
def hasColumn (t : TableSchema) (n : String) : Bool :=
  t.columns.any (fun c => c.name == n)

/-- Whether a table has a `server_id` column marked optional. -/
def hasOptionalServerId (t : TableSchema) : Bool :=
  t.columns.any (fun c => c.name == "server_id" && c.isOptional)

/-- A partner record as the tab layout reads it from the app store
(src/unnamed/part_002 lines 24-26): only the possibly-absent `email`
field is consulted. -/
structure Partner where
  email : Option String
deriving DecidableEq, Repr

/-- The hard-coded owner email (src/unnamed/part_002 line 11). -/
def OWNER_EMAIL : String := "pc.2025.ai@gmail.com"

/-- JavaScript strict equality on `string | undefined` values:
two strings compare by contents, `undefined === undefined` is true, and
a string never equals `undefined`. -/
def strictEqOpt : Option String → Option String → Bool
  | some a, some b => a == b
  | none, none => true
  | _, _ => false

/-- Optional chaining through `toLowerCase`: `x?.toLowerCase()` maps an
absent value to `undefined` and a present string to its lower case. -/
def optToLower (e : Option String) : Option String :=
  e.map (fun s => s.toLower)

/-- The `isOwner` check (src/unnamed/part_002 line 23):
`user?.email?.toLowerCase() === OWNER_EMAIL.toLowerCase()`, where
`userEmail` stands for the chained `user?.email`. -/
def isOwner (userEmail : Option String) : Bool :=
  strictEqOpt (optToLower userEmail) (some OWNER_EMAIL.toLower)

/-- The `isPartner` check (src/unnamed/part_002 lines 24-26):
`partners.some(p => p.email?.toLowerCase() === user?.email?.toLowerCase())`. -/
def isPartnerOf (userEmail : Option String) (partners : List Partner) : Bool :=
  partners.any (fun p => strictEqOpt (optToLower p.email) (optToLower userEmail))

/-- The owner gate (src/unnamed/part_002 line 27):
`canAccessOwner = isOwner || isPartner`; the owner tab is rendered
exactly when this is true (line 68). -/
def canAccessOwner (userEmail : Option String) (partners : List Partner) : Bool :=
  isOwner userEmail || isPartnerOf userEmail partners

/-- One entry of `STATUS_CONFIG`
(src/frontend/src/components/ui/OrderStatusIndicator.tsx lines 20-29):
the dot color, the pulse flag and the label. -/
structure StatusConfig where
  color : String
  pulse : Bool
  label : String
deriving DecidableEq, Repr

/-- The `STATUS_CONFIG` object
(src/frontend/src/components/ui/OrderStatusIndicator.tsx lines 20-29)
as an association list in source order. -/
def STATUS_CONFIG : List (String × StatusConfig) :=
  [("no_active_order", ⟨"#3B82F6", false, "No Active Order"⟩),
   ("delivered", ⟨"#3B82F6", false, "Delivered"⟩),
   ("pending", ⟨"#EF4444", true, "Order Placed"⟩),
   ("confirmed", ⟨"#EF4444", true, "Confirmed"⟩),
   ("preparing", ⟨"#FBBF24", true, "Preparing"⟩),
   ("shipped", ⟨"#10B981", true, "Shipped"⟩),
   ("out_for_delivery", ⟨"#3B82F6", true, "Out for Delivery"⟩),
   ("cancelled", ⟨"#6B7280", false, "Cancelled"⟩)]

/-- The configured status keys, in source order. -/
def statusKeys : List String := STATUS_CONFIG.map Prod.fst

/-- The `no_active_order` fallback configuration. -/
def noActiveOrderConfig : StatusConfig := ⟨"#3B82F6", false, "No Active Order"⟩

/-- The property names `STATUS_CONFIG` inherits from
`Object.prototype`: JavaScript bracket access on an object literal
consults the prototype chain, so for these keys
`STATUS_CONFIG[status]` yields a truthy inherited function (or, for
`__proto__`, the prototype object itself) instead of `undefined`. -/
def objectPrototypeProps : List String :=
  ["constructor", "hasOwnProperty", "isPrototypeOf",
   "propertyIsEnumerable", "toLocaleString", "toString", "valueOf",
   "__proto__", "__defineGetter__", "__defineSetter__",
   "__lookupGetter__", "__lookupSetter__"]

/-- What the JavaScript expression `STATUS_CONFIG[status]` can
evaluate to: one of the eight own configuration objects, a truthy
property inherited from `Object.prototype`, or `undefined`. -/
inductive PropLookup where
  | own (cfg : StatusConfig)
  | inherited
  | undef
deriving DecidableEq, Repr

/-- The bracket access `STATUS_CONFIG[status]`
(src/frontend/src/components/ui/OrderStatusIndicator.tsx line 40): an
own property when `status` is a configured key, an inherited
`Object.prototype` property for the prototype names, `undefined`
otherwise. -/
def statusProp (status : String) : PropLookup :=
  match STATUS_CONFIG.lookup status with
  | some cfg => PropLookup.own cfg
  | none =>
      if status ∈ objectPrototypeProps then PropLookup.inherited
      else PropLookup.undef

/-- The value of `config` after
`STATUS_CONFIG[status] || STATUS_CONFIG[no_active_order]` (line 40):
`||` keeps the left operand when it is truthy — own configuration
objects and inherited prototype properties both are — and only
`undefined` falls back to the `no_active_order` configuration. -/
def configValue (status : String) : PropLookup :=
  match statusProp status with
  | PropLookup.own cfg => PropLookup.own cfg
  | PropLookup.inherited => PropLookup.inherited
  | PropLookup.undef => PropLookup.own noActiveOrderConfig

/-- `config.pulse` as consumed by the pulse effect (line 41): on an
inherited prototype property the field is `undefined`, which is
falsy. -/
def shouldPulse (status : String) : Bool :=
  match configValue status with
  | PropLookup.own cfg => cfg.pulse
  | PropLookup.inherited => false
  | PropLookup.undef => false

/-- `config.color` as passed to backgroundColor (line 121): `none`
stands for `undefined`, which is what an inherited prototype property
yields. -/
def renderedColor (status : String) : Option String :=
  match configValue status with
  | PropLookup.own cfg => some cfg.color
  | PropLookup.inherited => none
  | PropLookup.undef => none

/-- Modelled from the spec: the status of a Change Log entry. The
repository sources contain no Change Log implementation (only the
screens that would call it and the `sync_metadata` schema), so the
status set is taken from the data-model section of the spec: Pending,
InFlight, Confirmed, Failed, plus the terminal Cancelled state reached
by `cancelSuperseded`. -/
inductive EntryStatus where
  | Pending
  | InFlight
  | Confirmed
  | Failed
  | Cancelled
deriving DecidableEq, Repr, Fintype

/-- Modelled from the spec: `markInFlight(entryId)` moves a Pending
entry in flight when the Sync Engine submits it; it applies to no other
status. -/
def markInFlight : EntryStatus → Option EntryStatus
  | .Pending => some .InFlight
  | _ => none

/-- Modelled from the spec: `markConfirmed(entryId, serverId?)` settles
an in-flight entry on remote success; it applies to no other status. -/
def markConfirmed : EntryStatus → Option EntryStatus
  | .InFlight => some .Confirmed
  | _ => none

/-- Modelled from the spec: a terminal `markFailed(entryId, reason)`
settles an in-flight entry on a definitive rejection or once the
max-attempts threshold is crossed; a transient failure leaves the
status unchanged (no transition), per the push-phase description. -/
def markFailedTerminal : EntryStatus → Option EntryStatus
  | .InFlight => some .Failed
  | _ => none

/-- Modelled from the spec: `cancelSuperseded(localId)` cancels entries
that "have not yet gone in-flight", so it applies only to Pending. -/
def cancelSuperseded : EntryStatus → Option EntryStatus
  | .Pending => some .Cancelled
  | _ => none

/-- One status transition of a Change Log entry: some Change Log
operation takes the entry from `s` to `t`. -/
def entryStep (s t : EntryStatus) : Bool :=
  markInFlight s == some t || markConfirmed s == some t ||
    markFailedTerminal s == some t || cancelSuperseded s == some t

/-- Modelled from the spec: an Entity Record of the Local Store, with a
stable locally generated `localId`, a `serverId` that is absent until
the first successful push, and its fields. -/
structure EntityRecord where
  localId : String
  serverId : Option String
  fields : List (String × String)
deriving DecidableEq, Repr

/-- Modelled from the spec: the Local Store view of one table, the
newest record first (matching the screens, which prepend). -/
abbrev LocalStore : Type := List EntityRecord

/-- Modelled from the spec: `Coordinator.applyCreate(table, fields)`
inserts a record with a fresh local id and no server id into the Local
Store immediately and returns the local id. -/
def applyCreate (store : LocalStore) (newLocalId : String)
    (fields : List (String × String)) : LocalStore × String :=
  (⟨newLocalId, none, fields⟩ :: (store : List EntityRecord), newLocalId)

/-- Modelled from the spec: the status path of one push of a Pending
entry: the Sync Engine marks it in flight, then confirmed when the
remote returns a server id, or terminally failed on a definitive
rejection. -/
def resolvePush (res : Option String) (s : EntryStatus) : Option EntryStatus :=
  (markInFlight s).bind (fun s1 =>
    match res with
    | some _ => markConfirmed s1
    | none => markFailedTerminal s1)

/-- Modelled from the spec: the Sync Engine pushing a Create entry for
`lid`: on success (`res = some serverId`) it attaches the returned
server id to the Local Store record and the entry ends Confirmed; on a
definitive rejection the store is left as is and the entry ends
Failed. -/
def pushCreate (store : LocalStore) (lid : String) (res : Option String) :
    LocalStore × Option EntryStatus :=
  match res with
  | some sid =>
      ((store : List EntityRecord).map (fun r =>
        if r.localId == lid then { r with serverId := some sid } else r),
       resolvePush res EntryStatus.Pending)
  | none => (store, resolvePush res EntryStatus.Pending)

/-- A concrete subscriber used in concrete runs. -/
def exSubA : Subscriber := ⟨"a", "a@shop.example", none, 0⟩

/-- A second concrete subscriber used in concrete runs. -/
def exSubB : Subscriber := ⟨"b", "b@shop.example", none, 1⟩

/-- A concrete screen state holding the given subscribers and email
input, everything else quiescent. -/
def exState (subs : List Subscriber) (em : String) : ScreenState :=
  ⟨subs, [], false, em, false, none, false⟩

/-- C9: for every input whose trimmed email is empty,
`handleAddSubscriber` returns at its guard, so the run performs no
action at all: no subscriber is added or removed, no network request is
issued, and the whole screen state (error, loading, confetti included)
is unchanged. -/
theorem c9_empty_email_add_is_noop (c : ScreenState) (now : Nat)
    (net : NetResult Subscriber) (h : jsTrim c.newEmail = "") :
    handleAddSubscriber c now net = [] ∧
      runActions c (handleAddSubscriber c now net) = c := by
  refine ⟨?_, ?_⟩ <;> simp [handleAddSubscriber, h, runActions]

/-- C9 witness: the no-op at a concrete state whose email input is
empty. -/
theorem c9_witness :
    handleAddSubscriber (exState [exSubA] "") 5 (NetResult.failure none) = [] ∧
      runActions (exState [exSubA] "")
        (handleAddSubscriber (exState [exSubA] "") 5 (NetResult.failure none))
        = exState [exSubA] "" :=
  c9_empty_email_add_is_noop (exState [exSubA] "") 5 (NetResult.failure none)
    (by decide)

/-- C2: a Create that is optimistically applied and then fails at the
remote terminally is rolled back by the catch branch, and afterwards the
subscribers list holds no record whose id is the mutation's temporary
local id. -/
theorem c2_failed_create_rollback_removes_record (c : ScreenState)
    (now : Nat) (detail : Option String) (h : jsTrim c.newEmail ≠ "") :
    ((runActions c
        (handleAddSubscriber c now (NetResult.failure detail))).subscribers.all
      (fun s => s.id != tempIdOf now)) = true := by
  simp only [handleAddSubscriber, if_neg h, addSyncActions, addContActions,
    runActions, List.append_assoc, List.cons_append, List.nil_append,
    List.foldl_cons, List.foldl_nil, applyAction]
  simp only [List.all_eq_true]
  intro s hs
  exact (List.mem_filter.mp hs).2

/-- C2 witness: the rollback at a concrete state. -/
theorem c2_witness :
    ((runActions (exState [exSubA] "new@shop.example")
        (handleAddSubscriber (exState [exSubA] "new@shop.example") 5
          (NetResult.failure none))).subscribers.all
      (fun s => s.id != tempIdOf 5)) = true :=
  c2_failed_create_rollback_removes_record (exState [exSubA] "new@shop.example")
    5 none (by decide)

/-- C6: a Change Log entry status moves along exactly the transitions
Pending to InFlight, InFlight to Confirmed, InFlight to Failed and
Pending to Cancelled; in particular no operation leaves a terminal
state (Confirmed, Failed, Cancelled) and none reaches Confirmed or
Failed without passing through InFlight. -/
theorem c6_entry_status_transitions :
    ∀ s t : EntryStatus, entryStep s t = true ↔
      ((s = EntryStatus.Pending ∧ t = EntryStatus.InFlight) ∨
       (s = EntryStatus.InFlight ∧ t = EntryStatus.Confirmed) ∨
       (s = EntryStatus.InFlight ∧ t = EntryStatus.Failed) ∨
       (s = EntryStatus.Pending ∧ t = EntryStatus.Cancelled)) := by
  decide

/-- C1: for each mutation handler of the subscriptions screen (Create =
add, Delete = delete, Update = approve), the trace begins with the
optimistic local state mutation, the network request is issued strictly
after it as the last synchronous step, control returns to the caller at
the `await` (the `handlerReturn` marker) without waiting for the remote
answer, and the continuation that runs when the round trip completes
issues no further network call. -/
theorem c1_local_mutation_before_network :
    (∀ (c : ScreenState) (now : Nat) (net : NetResult Subscriber),
      jsTrim c.newEmail ≠ "" →
      handleAddSubscriber c now net =
        UiAction.setSubscribers
            (⟨tempIdOf now, jsTrim c.newEmail, none, now⟩ :: c.subscribers)
          :: UiAction.setShowAddModal false
          :: UiAction.setNewEmail ""
          :: UiAction.setShowConfetti true
          :: UiAction.setLoading true
          :: UiAction.netCreate (jsTrim c.newEmail)
          :: UiAction.handlerReturn
          :: addContActions c now net ∧
      ((addContActions c now net).all
        (fun a => !(isNetworkCall a))) = true) ∧
    (∀ (c : ScreenState) (subId : String) (subToDelete : Subscriber)
       (net : NetResult Unit),
      c.subscribers.find? (fun s => s.id == subId) = some subToDelete →
      handleDeleteSubscriber c subId net =
        UiAction.setSubscribers (c.subscribers.filter (fun s => s.id != subId))
          :: UiAction.netDelete subId
          :: UiAction.handlerReturn
          :: deleteContActions c subToDelete net ∧
      ((deleteContActions c subToDelete net).all
        (fun a => !(isNetworkCall a))) = true) ∧
    (∀ (c : ScreenState) (reqId : String) (request : Request) (now : Nat)
       (net : NetResult Unit),
      c.requests.find? (fun r => r.id == reqId) = some request →
      handleApproveRequest c reqId now net =
        UiAction.setRequests
            (c.requests.map (fun r =>
              if r.id == reqId then { r with status := "approved" } else r))
          :: UiAction.setShowConfetti true
          :: UiAction.netApprove reqId
          :: UiAction.handlerReturn
          :: approveContActions c reqId request now net ∧
      ((approveContActions c reqId request now net).all
        (fun a => !(isNetworkCall a))) = true) := by
  refine ⟨?_, ?_, ?_⟩
  · intro c now net h
    refine ⟨by simp [handleAddSubscriber, if_neg h, addSyncActions], ?_⟩
    cases net <;> simp [addContActions, isNetworkCall]
  · intro c subId subToDelete net h
    refine ⟨by simp [handleDeleteSubscriber, h, deleteSyncActions], ?_⟩
    cases net <;> simp [deleteContActions, isNetworkCall]
  · intro c reqId request now net h
    refine ⟨by simp [handleApproveRequest, h, approveSyncActions], ?_⟩
    cases net <;> simp [approveContActions, isNetworkCall]

/-- C1 witness: the delete handler at a concrete state with two
subscribers, deleting the first. -/
theorem c1_witness :
    handleDeleteSubscriber (exState [exSubA, exSubB] "") "a"
        (NetResult.success ()) =
      UiAction.setSubscribers
          ((exState [exSubA, exSubB] "").subscribers.filter
            (fun s => s.id != "a"))
        :: UiAction.netDelete "a"
        :: UiAction.handlerReturn
        :: deleteContActions (exState [exSubA, exSubB] "") exSubA
            (NetResult.success ()) ∧
      ((deleteContActions (exState [exSubA, exSubB] "") exSubA
          (NetResult.success ())).all (fun a => !(isNetworkCall a))) = true :=
  c1_local_mutation_before_network.2.1 (exState [exSubA, exSubB] "") "a" exSubA
    (NetResult.success ()) (by decide)

/-- A concrete screen state with subscribers a and b, used to run the
delete handler. -/
def c3State : ScreenState := exState [exSubA, exSubB] ""

/-- C3, evaluated at the failing input: deleting subscriber "a" from
the list [a, b] and having the remote reject leaves the subscribers
list as [a, b, a] — the catch branch appends the deleted record to the
captured pre-delete list, which still contains it, so the "rollback"
duplicates the record instead of restoring the pre-mutation snapshot
[a, b]. -/
theorem c3_delete_rollback_duplicates :
    (runActions c3State
        (handleDeleteSubscriber c3State "a" (NetResult.failure none))).subscribers
      = [exSubA, exSubB, exSubA] ∧
    (runActions c3State
        (handleDeleteSubscriber c3State "a" (NetResult.failure none))).subscribers
      ≠ c3State.subscribers := by
  refine ⟨by decide, by decide⟩

/-- The screen state after the first add handler's synchronous part has
run from `s0` (its optimistic update committed, re-render happened) and
the user has typed a second email `e2`; a second add handler created
now captures this state as its closure. -/
def afterFirstAdd (s0 : ScreenState) (now1 : Nat) (e2 : String) : ScreenState :=
  { runActions s0 (addSyncActions s0 now1) with newEmail := e2 }

/-- The screen state after the second add handler's synchronous part
has also run, both create requests still in flight. -/
def afterSecondAdd (s0 : ScreenState) (now1 : Nat) (e2 : String)
    (now2 : Nat) : ScreenState :=
  runActions (afterFirstAdd s0 now1 e2)
    (addSyncActions (afterFirstAdd s0 now1 e2) now2)

/-- C4 as amended: a rollback overwrites the store with a value
computed from the snapshot the handler's closure captured, not from the
current state, and rollbacks are not sequenced. Concretely: (a)/(b) the
two create traces decompose into a synchronous part and a continuation;
(c) if a second create (fresh local id) fails first, its rollback
restores the post-first-mutation state — for a second create the
rollback snapshot is indeed the current state, not the original; (d) if
the first create fails while the second is still unconfirmed, its
rollback resets the list to its own pre-mutation snapshot, erasing the
intervening unconfirmed second mutation — rollbacks are not applied one
step at a time in reverse order; and (e)/(f) for the one same-localId
second mutation the screen supports — deleting the optimistically
created record while its create is unconfirmed — the failed delete's
rollback appends the record to the captured post-first-mutation
snapshot that still contains it, yielding that snapshot with a
duplicate appended, not the post-first-mutation state. -/
theorem c4_rollback_uses_closure_snapshot (s0 : ScreenState)
    (now1 now2 : Nat) (e2 : String) (d1 d2 d3 : Option String)
    (h1 : jsTrim s0.newEmail ≠ "") (h2 : jsTrim e2 ≠ "")
    (hne : tempIdOf now1 ≠ tempIdOf now2)
    (hfresh1 : s0.subscribers.all (fun s => s.id != tempIdOf now1) = true)
    (hfresh2 : s0.subscribers.all (fun s => s.id != tempIdOf now2) = true) :
    handleAddSubscriber s0 now1 (NetResult.failure d1) =
        addSyncActions s0 now1 ++
          UiAction.handlerReturn :: addContActions s0 now1 (NetResult.failure d1) ∧
    handleAddSubscriber (afterFirstAdd s0 now1 e2) now2 (NetResult.failure d2) =
        addSyncActions (afterFirstAdd s0 now1 e2) now2 ++
          UiAction.handlerReturn ::
            addContActions (afterFirstAdd s0 now1 e2) now2 (NetResult.failure d2) ∧
    (runActions (afterSecondAdd s0 now1 e2 now2)
        (addContActions (afterFirstAdd s0 now1 e2) now2
          (NetResult.failure d2))).subscribers
      = ⟨tempIdOf now1, jsTrim s0.newEmail, none, now1⟩ :: s0.subscribers ∧
    (runActions (afterSecondAdd s0 now1 e2 now2)
        (addContActions s0 now1 (NetResult.failure d1))).subscribers
      = s0.subscribers ∧
    handleDeleteSubscriber (afterFirstAdd s0 now1 e2) (tempIdOf now1)
        (NetResult.failure d3) =
      deleteSyncActions (afterFirstAdd s0 now1 e2) (tempIdOf now1) ++
        UiAction.handlerReturn ::
          deleteContActions (afterFirstAdd s0 now1 e2)
            ⟨tempIdOf now1, jsTrim s0.newEmail, none, now1⟩
            (NetResult.failure d3) ∧
    ((runActions
        (runActions (afterFirstAdd s0 now1 e2)
          (deleteSyncActions (afterFirstAdd s0 now1 e2) (tempIdOf now1)))
        (deleteContActions (afterFirstAdd s0 now1 e2)
          ⟨tempIdOf now1, jsTrim s0.newEmail, none, now1⟩
          (NetResult.failure d3))).subscribers
      = (⟨tempIdOf now1, jsTrim s0.newEmail, none, now1⟩ :: s0.subscribers)
          ++ [⟨tempIdOf now1, jsTrim s0.newEmail, none, now1⟩] ∧
     (runActions
        (runActions (afterFirstAdd s0 now1 e2)
          (deleteSyncActions (afterFirstAdd s0 now1 e2) (tempIdOf now1)))
        (deleteContActions (afterFirstAdd s0 now1 e2)
          ⟨tempIdOf now1, jsTrim s0.newEmail, none, now1⟩
          (NetResult.failure d3))).subscribers
      ≠ ⟨tempIdOf now1, jsTrim s0.newEmail, none, now1⟩ :: s0.subscribers) := by
  have hAsubs : (afterFirstAdd s0 now1 e2).subscribers
      = ⟨tempIdOf now1, jsTrim s0.newEmail, none, now1⟩ :: s0.subscribers := by
    simp [afterFirstAdd, addSyncActions, runActions, applyAction]
  have hAe : (afterFirstAdd s0 now1 e2).newEmail = e2 := by
    simp [afterFirstAdd]
  have hf1 : s0.subscribers.filter (fun s => s.id != tempIdOf now1)
      = s0.subscribers :=
    List.filter_eq_self.mpr (List.all_eq_true.mp hfresh1)
  have hf2 : s0.subscribers.filter (fun s => s.id != tempIdOf now2)
      = s0.subscribers :=
    List.filter_eq_self.mpr (List.all_eq_true.mp hfresh2)
  have hfind : (afterFirstAdd s0 now1 e2).subscribers.find?
        (fun s => s.id == tempIdOf now1)
      = some ⟨tempIdOf now1, jsTrim s0.newEmail, none, now1⟩ := by
    rw [hAsubs]
    exact List.find?_cons_of_pos _ (by simp)
  have hdel : (runActions
      (runActions (afterFirstAdd s0 now1 e2)
        (deleteSyncActions (afterFirstAdd s0 now1 e2) (tempIdOf now1)))
      (deleteContActions (afterFirstAdd s0 now1 e2)
        ⟨tempIdOf now1, jsTrim s0.newEmail, none, now1⟩
        (NetResult.failure d3))).subscribers
      = (⟨tempIdOf now1, jsTrim s0.newEmail, none, now1⟩ :: s0.subscribers)
          ++ [⟨tempIdOf now1, jsTrim s0.newEmail, none, now1⟩] := by
    simp [deleteSyncActions, deleteContActions, runActions, applyAction,
      hAsubs]
  refine ⟨by simp [handleAddSubscriber, if_neg h1], ?_, ?_, ?_, ?_, hdel, ?_⟩
  · rw [handleAddSubscriber, hAe, if_neg h2]
  · simp [afterSecondAdd, addSyncActions, addContActions, runActions,
      applyAction, hAsubs, List.filter_cons, bne_iff_ne.mpr hne, hf2]
  · simp [afterSecondAdd, addSyncActions, addContActions, runActions,
      applyAction, hAsubs, hf1]
  · simp [handleDeleteSubscriber, hfind]
  · rw [hdel]
    intro hEq
    have hlen := congrArg List.length hEq
    simp [List.length_append] at hlen

/-- A concrete starting state for the interleaved scenario: one
existing subscriber and a first email typed in. -/
def c4s0 : ScreenState := ⟨[exSubA], [], true, "x@shop.example", false, none, false⟩

/-- C4 counterexample, two runs from [exSubA]. First run: create
"x@shop.example" at time 1, create "y@shop.example" at time 2 while the
first is in flight, then the first create fails terminally — its
rollback resets the list to the first handler's captured snapshot, so
the second create's optimistic record (id "temp-2") is erased even
though that mutation is still unconfirmed: the rollback reverted past
an intervening unconfirmed mutation. Second run: create at time 1 and
then delete the optimistic record "temp-1" (the one same-localId second
mutation) while the create is in flight; the delete fails, and its
rollback yields [temp-1, exSubA, temp-1], not the post-first-mutation
state [temp-1, exSubA] — the second mutation's rollback snapshot claim
fails for the same-localId case. -/
theorem c4_counterexample :
    (afterSecondAdd c4s0 1 "y@shop.example" 2).subscribers
      = [⟨tempIdOf 2, "y@shop.example", none, 2⟩,
         ⟨tempIdOf 1, "x@shop.example", none, 1⟩, exSubA] ∧
    (runActions (afterSecondAdd c4s0 1 "y@shop.example" 2)
        (addContActions c4s0 1 (NetResult.failure none))).subscribers
      = [exSubA] ∧
    ((runActions (afterSecondAdd c4s0 1 "y@shop.example" 2)
        (addContActions c4s0 1 (NetResult.failure none))).subscribers.all
      (fun s => s.id != tempIdOf 2)) = true ∧
    (runActions
        (runActions (afterFirstAdd c4s0 1 "y@shop.example")
          (deleteSyncActions (afterFirstAdd c4s0 1 "y@shop.example")
            (tempIdOf 1)))
        (deleteContActions (afterFirstAdd c4s0 1 "y@shop.example")
          ⟨tempIdOf 1, "x@shop.example", none, 1⟩
          (NetResult.failure none))).subscribers
      = [⟨tempIdOf 1, "x@shop.example", none, 1⟩, exSubA,
         ⟨tempIdOf 1, "x@shop.example", none, 1⟩] ∧
    (runActions
        (runActions (afterFirstAdd c4s0 1 "y@shop.example")
          (deleteSyncActions (afterFirstAdd c4s0 1 "y@shop.example")
            (tempIdOf 1)))
        (deleteContActions (afterFirstAdd c4s0 1 "y@shop.example")
          ⟨tempIdOf 1, "x@shop.example", none, 1⟩
          (NetResult.failure none))).subscribers
      ≠ [⟨tempIdOf 1, "x@shop.example", none, 1⟩, exSubA] := by
  refine ⟨by decide, by decide, by decide, by decide, by decide⟩

/-- C4 witness: the amended statement at the concrete scenario — the
second create's rollback restores the post-first-mutation state. -/
theorem c4_witness :
    (runActions (afterSecondAdd c4s0 1 "y@shop.example" 2)
        (addContActions (afterFirstAdd c4s0 1 "y@shop.example") 2
          (NetResult.failure none))).subscribers
      = ⟨tempIdOf 1, jsTrim c4s0.newEmail, none, 1⟩ :: c4s0.subscribers :=
  (c4_rollback_uses_closure_snapshot c4s0 1 2 "y@shop.example" none none none
    (by decide) (by decide) (by decide) (by decide) (by decide)).2.2.1

/-- C5: a Create that succeeds at the remote. Spec-modelled part (the
Coordinator and Sync Engine are not in the sources): `applyCreate`
returns the local id and the store immediately holds the record with
that local id and no server id; pushing it with a returned server id
leaves the store with the same record now carrying that server id and
the entry status Confirmed. Code part (`handleAddSubscriber`): right
after the optimistic synchronous part, the subscribers list starts with
the temp-id record; when the create call succeeds, the server record
replaces it and no record with the temp id remains. -/
theorem c5_successful_create_confirms :
    (∀ (store : List EntityRecord) (lid : String)
       (fields : List (String × String)) (sid : String),
      store.all (fun r => r.localId != lid) = true →
      (applyCreate store lid fields).2 = lid ∧
      (applyCreate store lid fields).1.head? = some ⟨lid, none, fields⟩ ∧
      pushCreate (applyCreate store lid fields).1 lid (some sid)
        = (⟨lid, some sid, fields⟩ :: store, some EntryStatus.Confirmed)) ∧
    (∀ (c : ScreenState) (now : Nat) (data : Subscriber),
      jsTrim c.newEmail ≠ "" → data.id ≠ tempIdOf now →
      (runActions c (addSyncActions c now)).subscribers.head?
          = some ⟨tempIdOf now, jsTrim c.newEmail, none, now⟩ ∧
      (runActions c (handleAddSubscriber c now (NetResult.success data))).subscribers
          = data :: c.subscribers.filter (fun s => s.id != tempIdOf now) ∧
      ((runActions c
          (handleAddSubscriber c now (NetResult.success data))).subscribers.all
        (fun s => s.id != tempIdOf now)) = true) := by
  constructor
  · intro store lid fields sid hfresh
    have hmap : store.map (fun r =>
        if r.localId == lid then { r with serverId := some sid } else r)
          = store := by
      have hall := List.all_eq_true.mp hfresh
      refine (List.map_congr_left ?_).trans (List.map_id store)
      intro r hr
      have hne : (r.localId == lid) = false := by
        simpa using hall r hr
      simp [hne]
    refine ⟨rfl, rfl, ?_⟩
    show ((⟨lid, none, fields⟩ :: store).map (fun r =>
        if r.localId == lid then { r with serverId := some sid } else r),
      resolvePush (some sid) EntryStatus.Pending)
      = (⟨lid, some sid, fields⟩ :: store, some EntryStatus.Confirmed)
    rw [List.map_cons, hmap]
    simp [resolvePush, markInFlight, markConfirmed]
  · intro c now data h hdata
    refine ⟨by simp [addSyncActions, runActions, applyAction], ?_, ?_⟩
    · simp [handleAddSubscriber, if_neg h, addSyncActions, addContActions,
        runActions, applyAction]
    · simp only [handleAddSubscriber, if_neg h, addSyncActions, addContActions,
        runActions, List.append_assoc, List.cons_append, List.nil_append,
        List.foldl_cons, List.foldl_nil, applyAction]
      simp only [List.all_eq_true]
      intro s hs
      rcases List.mem_cons.mp hs with hs | hs
      · subst hs
        simpa using hdata
      · exact (List.mem_filter.mp hs).2

/-- C5 witness: the spec scenario with fields productId p1, local id
L1, server id S1, and the code part at a concrete state. -/
theorem c5_witness :
    pushCreate (applyCreate ([] : LocalStore) "L1" [("productId", "p1")]).1
        "L1" (some "S1")
      = ([⟨"L1", some "S1", [("productId", "p1")]⟩], some EntryStatus.Confirmed) ∧
    (runActions (exState [exSubA] "new@shop.example")
        (handleAddSubscriber (exState [exSubA] "new@shop.example") 5
          (NetResult.success exSubB))).subscribers
      = exSubB :: (exState [exSubA] "new@shop.example").subscribers.filter
          (fun s => s.id != tempIdOf 5) :=
  ⟨(c5_successful_create_confirms.1 [] "L1" [("productId", "p1")] "S1"
      (by decide)).2.2,
   (c5_successful_create_confirms.2 (exState [exSubA] "new@shop.example") 5
      exSubB (by decide) (by decide)).2.1⟩

/-- The schema property as claim C7 states it, over a table list: each
synchronized entity type (subscriber, product, favorite, cart item) has
a table whose `server_id` column is optional and which carries
`created_at` and `updated_at` timestamp columns. -/
def c7ClaimedHolds (tables : List TableSchema) : Bool :=
  ["subscribers", "products", "favorites", "cart_items"].all (fun n =>
    match findTable tables n with
    | some t =>
        hasOptionalServerId t && hasColumn t "created_at" &&
          hasColumn t "updated_at"
    | none => false)

/-- C7 counterexample: the claimed property fails on the schema of
src/unnamed/part_000 — there is no subscribers table at all,
`cart_items` has no `server_id` column, and the `server_id` column of
`products` is required, not optional. -/
theorem c7_counterexample :
    c7ClaimedHolds appSchemaTables = false ∧
    findTable appSchemaTables "subscribers" = none ∧
    hasColumn cartItemsTable "server_id" = false ∧
    hasOptionalServerId productsTable = false := by
  refine ⟨by decide, by decide, by decide, by decide⟩

/-- C7 as amended: every entity table of the schema (the seven tables
other than `sync_metadata`) carries `created_at` and `updated_at`
number columns; among the entity types the claim names, only
`favorites` has a `server_id` column that is optional (absent until the
first successful push); `products` has a required `server_id`;
`cart_items` is local-first with no `server_id` column; and subscribers
have no local table. -/
theorem c7_schema_sync_columns :
    (([carBrandsTable, carModelsTable, productBrandsTable, categoriesTable,
        productsTable, favoritesTable, cartItemsTable]).all (fun t =>
      hasColumn t "created_at" && hasColumn t "updated_at")) = true ∧
    hasOptionalServerId favoritesTable = true ∧
    (productsTable.columns.any (fun c =>
      c.name == "server_id" && !c.isOptional)) = true ∧
    hasColumn cartItemsTable "server_id" = false ∧
    findTable appSchemaTables "subscribers" = none := by
  refine ⟨by decide, by decide, by decide, by decide, by decide⟩

/-- Lowering an absent email yields an absent value. -/
theorem optToLower_none : optToLower none = none := rfl

/-- Lowering a present email lowers the string. -/
theorem optToLower_some (e : String) :
    optToLower (some e) = some e.toLower := rfl

/-- The owner comparison for a present email is a lowered string
comparison. -/
theorem isOwner_some (e : String) :
    isOwner (some e) = (e.toLower == OWNER_EMAIL.toLower) := rfl

/-- The owner comparison for an absent email is false: a string never
strictly equals `undefined`. -/
theorem isOwner_none : isOwner none = false := rfl

/-- One partner comparison against an absent user email is true exactly
when the partner record's email is also absent. -/
theorem partnerMatch_none (p : Partner) :
    strictEqOpt (optToLower p.email) none = true ↔ p.email = none := by
  cases hp : p.email <;> simp [optToLower, strictEqOpt]

/-- One partner comparison against a present user email is true exactly
when the partner record has an email equal to it after lowering. -/
theorem partnerMatch_some (p : Partner) (e : String) :
    strictEqOpt (optToLower p.email) (some e.toLower) = true ↔
      ∃ pe, p.email = some pe ∧ pe.toLower = e.toLower := by
  cases hp : p.email <;> simp [optToLower, strictEqOpt]

/-- The access condition as claim C8 states it: the signed-in user has
an email that equals the hard-coded owner email case-insensitively, or
equals case-insensitively the email of at least one partner record. -/
def claimedOwnerAccess (userEmail : Option String)
    (partners : List Partner) : Prop :=
  ∃ e, userEmail = some e ∧
    (e.toLower = OWNER_EMAIL.toLower ∨
      ∃ p ∈ partners, ∃ pe, p.email = some pe ∧ pe.toLower = e.toLower)

/-- C8 counterexample: a signed-in user with no email and a partners
list holding one record that also has no email. The code renders the
owner tab (`undefined === undefined` in the partner comparison makes
`isPartner` true), but the claimed condition is false since the user
has no email at all. -/
theorem c8_counterexample :
    canAccessOwner none [⟨none⟩] = true ∧
      ¬ claimedOwnerAccess none [⟨none⟩] := by
  refine ⟨rfl, ?_⟩
  rintro ⟨e, he, -⟩
  exact Option.noConfusion he

/-- C8 as amended: the owner tab is rendered iff the user's email
equals the owner email case-insensitively, or equals case-insensitively
the email of some partner record, or the user's email is absent and
some partner record's email is also absent; and with no email and an
empty partners list the tab is absent. -/
theorem c8_owner_gate_characterization :
    (∀ (userEmail : Option String) (partners : List Partner),
      canAccessOwner userEmail partners = true ↔
        (claimedOwnerAccess userEmail partners ∨
          (userEmail = none ∧ ∃ p ∈ partners, p.email = none))) ∧
    canAccessOwner none [] = false := by
  refine ⟨?_, rfl⟩
  intro ue ps
  cases ue with
  | none =>
      simp [canAccessOwner, isOwner_none, isPartnerOf, List.any_eq_true,
        claimedOwnerAccess, optToLower_none, partnerMatch_none]
  | some e =>
      simp [canAccessOwner, isOwner_some, isPartnerOf, List.any_eq_true,
        claimedOwnerAccess, optToLower_some, partnerMatch_some]

/-- Any status string outside the eight configured keys has no own
property in `STATUS_CONFIG`. -/
theorem lookup_none_of_not_mem (s : String) (hs : s ∉ statusKeys) :
    STATUS_CONFIG.lookup s = none := by
  simp only [statusKeys, STATUS_CONFIG, List.map_cons, List.map_nil,
    List.mem_cons, List.not_mem_nil, or_false, not_or] at hs
  obtain ⟨h1, h2, h3, h4, h5, h6, h7, h8⟩ := hs
  simp [STATUS_CONFIG, List.lookup,
    beq_eq_false_iff_ne.mpr h1, beq_eq_false_iff_ne.mpr h2,
    beq_eq_false_iff_ne.mpr h3, beq_eq_false_iff_ne.mpr h4,
    beq_eq_false_iff_ne.mpr h5, beq_eq_false_iff_ne.mpr h6,
    beq_eq_false_iff_ne.mpr h7, beq_eq_false_iff_ne.mpr h8]

/-- C10 counterexample: the status string "toString" is not one of the
eight configured keys, yet the bracket access finds the truthy
`Object.prototype.toString` function, so `||` never falls back: the
component does not render with the `no_active_order` configuration but
with an undefined color, refuting the claimed totality over arbitrary
status strings. -/
theorem c10_counterexample :
    ("toString" ∉ statusKeys) ∧
    configValue "toString" = PropLookup.inherited ∧
    configValue "toString" ≠ PropLookup.own noActiveOrderConfig ∧
    renderedColor "toString" = none ∧
    renderedColor "toString" ≠ some noActiveOrderConfig.color := by
  refine ⟨by decide, by decide, by decide, by decide, by decide⟩

/-- C10 as amended: a status string that is neither a configured key
nor an `Object.prototype` property name falls back to the
`no_active_order` configuration (blue #3B82F6, no pulse); a status
naming an inherited prototype property keeps that truthy property, so
the dot renders with undefined color; and the pulse flag is set
exactly for pending, confirmed, preparing, shipped and
out_for_delivery. -/
theorem c10_status_indicator_lookup :
    (∀ s : String, s ∉ statusKeys → s ∉ objectPrototypeProps →
      configValue s = PropLookup.own noActiveOrderConfig ∧
        renderedColor s = some "#3B82F6" ∧ shouldPulse s = false) ∧
    (∀ s : String, s ∈ objectPrototypeProps →
      configValue s = PropLookup.inherited ∧ renderedColor s = none ∧
        shouldPulse s = false) ∧
    (∀ s : String, shouldPulse s = true ↔
      s ∈ (["pending", "confirmed", "preparing", "shipped",
            "out_for_delivery"] : List String)) := by
  refine ⟨?_, ?_, ?_⟩
  · intro s h1 h2
    refine ⟨?_, ?_, ?_⟩ <;>
      simp [configValue, statusProp, renderedColor, shouldPulse,
        lookup_none_of_not_mem s h1, h2, noActiveOrderConfig]
  · intro s hs
    simp only [objectPrototypeProps, List.mem_cons, List.not_mem_nil,
      or_false] at hs
    rcases hs with h | h | h | h | h | h | h | h | h | h | h | h <;>
      subst h <;> exact ⟨by decide, by decide, by decide⟩
  · intro s
    by_cases hmem : s ∈ statusKeys
    · simp only [statusKeys, STATUS_CONFIG, List.map_cons, List.map_nil,
        List.mem_cons, List.not_mem_nil, or_false] at hmem
      rcases hmem with h | h | h | h | h | h | h | h <;> subst h <;> decide
    · constructor
      · intro hp
        by_cases hproto : s ∈ objectPrototypeProps
        · simp [shouldPulse, configValue, statusProp,
            lookup_none_of_not_mem s hmem, hproto] at hp
        · simp [shouldPulse, configValue, statusProp,
            lookup_none_of_not_mem s hmem, hproto, noActiveOrderConfig] at hp
      · intro h5
        exfalso
        apply hmem
        simp only [List.mem_cons, List.not_mem_nil, or_false] at h5
        rcases h5 with h | h | h | h | h <;> subst h <;> decide

/-- C10 witness: an arbitrary status string that is neither configured
nor a prototype property name renders with the fallback
configuration. -/
theorem c10_witness :
    configValue "returned" = PropLookup.own noActiveOrderConfig ∧
      renderedColor "returned" = some "#3B82F6" ∧
      shouldPulse "returned" = false :=
  c10_status_indicator_lookup.1 "returned" (by decide) (by decide)
